import Mathlib

/-!
# Verification of the YouTube Playlist Downloader CLI orchestration

Shallow embedding of the orchestration logic of the
`MaheshTechnicals/Youtube-Playlist-Downloader-YPD` scripts
(`src/index.mjs` and the two unnamed script variants), together with
proofs about the embedded functions.

Strings are modelled as `List Char`.  JavaScript truthiness on strings
(`""` is falsy) is modelled explicitly where the source relies on it.
-/

set_option autoImplicit false

namespace YPD

/-- JavaScript `a || b` on an optional string: `undefined`/`null` and the
empty string are falsy, so they fall through to the default. -/
def jsOr (a : Option (List Char)) (b : List Char) : List Char :=
  match a with
  | none => b
  | some s => if s = [] then b else s

/-- JavaScript template interpolation of a possibly-`undefined` string:
`undefined` prints as the literal text `undefined`. -/
def jsStr (a : Option (List Char)) : List Char :=
  match a with
  | none => "undefined".toList
  | some s => s

/-- The character class of the sanitizer regex `[<>:"/\\|?*]`
(`src/unnamed/part_000` line 248, `src/unnamed/part_001` line 41,
`src/index.mjs` line 38). -/
def badChar (c : Char) : Bool :=
  c = '<' || c = '>' || c = ':' || c = '"' || c = '/' || c = '\\' ||
  c = '|' || c = '?' || c = '*'

/-- `String.prototype.replace` with a global regex `cls+` and a fixed
replacement string: each maximal run of characters satisfying `cls` is
replaced by `repl`, all other characters are copied through in order. -/
def replaceRuns (cls : Char → Bool) (repl : List Char) : List Char → List Char
  | [] => []
  | c :: cs =>
    if cls c then repl ++ replaceRuns cls repl (cs.dropWhile cls)
    else c :: replaceRuns cls repl cs
termination_by s => s.length
decreasing_by
  · simpa using Nat.lt_succ_of_le (List.dropWhile_suffix cls).sublist.length_le
  · simp

/-- `sanitize(name)` = `name.replace(/[<>:"/\\|?*]+/g, "")`
(`src/unnamed/part_000` lines 248-250, `src/unnamed/part_001`
lines 41-43; inlined at `src/index.mjs` line 38 and
`src/unnamed/part_000` line 36). -/
def sanitize (name : List Char) : List Char :=
  replaceRuns badChar [] name

/-! ### Download Executor loop -/

/-- Per-job result of the download loop: a job either succeeds (the external
tool exits 0) or is marked failed. -/
inductive JobStatus
  | succeeded
  | failed
deriving DecidableEq

/-- The per-job record of the spec's `DownloadOutcome`. -/
structure JobOutcome (J : Type) where
  job : J
  status : JobStatus
deriving DecidableEq

/-- The outcome of one loop body: `try await downloadVideo(...) ... catch`:
`exec j = true` models a zero exit code of the external tool. -/
def outcomeOf {J : Type} (exec : J → Bool) (j : J) : JobOutcome J :=
  { job := j, status := if exec j then .succeeded else .failed }

/-- Embeds the download loops of `playlistMode` (`src/unnamed/part_000`
lines 448-457) and `multiVideoMode` (lines 382-390): the selected jobs are
processed front to back, one at a time, each wrapped in its own
try/catch, so each job contributes exactly one outcome. -/
def runJobs {J : Type} (exec : J → Bool) : List J → List (JobOutcome J)
  | [] => []
  | j :: rest => outcomeOf exec j :: runJobs exec rest

/-! ### Batch input parsing (`links.txt`) -/

/-- The whitespace class of JavaScript `String.prototype.trim`. -/
def jsWS (c : Char) : Bool :=
  c = ' ' || c = '\t' || c = '\n' || c = '\r' || c = '\x0b' || c = '\x0c' ||
  c = '\u00a0' || c = '\ufeff' || c = '\u2028' || c = '\u2029'

/-- JavaScript `s.split("\n")`: the segments between newline characters,
with an empty segment for each leading/trailing/adjacent newline
(`"".split("\n")` is `[""]`). -/
def splitLines : List Char → List (List Char)
  | [] => [[]]
  | c :: cs =>
    match splitLines cs with
    | [] => [[]]
    | l :: ls => if c = '\n' then [] :: l :: ls else (c :: l) :: ls

/-- JavaScript `s.trim()`: strip leading and trailing whitespace. -/
def jsTrim (s : List Char) : List Char :=
  (((s.dropWhile jsWS).reverse).dropWhile jsWS).reverse

/-- `content.split("\n").map(s => s.trim()).filter(Boolean)` of
`multiVideoMode` (`src/unnamed/part_000` lines 373-374,
`src/unnamed/part_001` lines 141-142): the download jobs made from the
batch input file. -/
def parseLinks (content : List Char) : List (List Char) :=
  ((splitLines content).map jsTrim).filter (fun l => !l.isEmpty)

/-- How a run of multi mode in `src/unnamed/part_000` ends before any
download: the mode function returns early (reporting a missing or empty
`links.txt`), or proceeds with the parsed jobs. -/
inductive MultiModeResult
  | missingFile
  | emptyFile
  | jobs (links : List (List Char))
deriving DecidableEq

/-- `multiVideoMode` of `src/unnamed/part_000` (lines 365-379): a missing
or empty `links.txt` prints a message and `return`s from the mode (the
menu runner then finishes normally); otherwise the trimmed non-empty
lines become the jobs. -/
def multiVideoMode_p0 (linksFileP : Bool) (content : List Char) : MultiModeResult :=
  if !linksFileP then .missingFile
  else
    let links := parseLinks content
    if links.isEmpty then .emptyFile else .jobs links

/-- How a run of multi mode in `src/unnamed/part_001` ends before any
download: the whole process is terminated, or the jobs proceed. -/
inductive MultiModeResult1
  | exitProcess (code : Nat)
  | jobs (links : List (List Char))
deriving DecidableEq

/-- `multiVideoMode` of `src/unnamed/part_001` (lines 135-147): a missing
or empty `links.txt` calls `process.exit(1)`, terminating the whole
process. -/
def multiVideoMode_p1 (linksFileP : Bool) (content : List Char) : MultiModeResult1 :=
  if !linksFileP then .exitProcess 1
  else
    let links := parseLinks content
    if links.length = 0 then .exitProcess 1 else .jobs links

/-! ### Auto-numbered batch archive name -/

/-- JavaScript `s.startsWith(pre)`. -/
def startsWithJS : List Char → List Char → Bool
  | [], _ => true
  | _ :: _, [] => false
  | p :: ps, c :: cs => p = c && startsWithJS ps cs

/-- The `"multi-"` name tag. -/
def multiTag : List Char := "multi-".toList

/-- `(await fs.readdir(zipDir)).filter(f => f.startsWith("multi-")).length + 1`
and `multi-${count}` of `multiVideoMode` (`src/unnamed/part_000`
lines 396-398, `src/unnamed/part_001` lines 166-168): the archive base
name counts the existing `multi-` files and adds one. -/
def nextMultiBaseName (files : List (List Char)) : List Char :=
  multiTag ++
    Nat.toDigits 10 ((files.filter (fun f => startsWithJS multiTag f)).length + 1)

/-- Decimal digits to a number. -/
def digitsToNat (ds : List Char) : Nat :=
  ds.foldl (fun acc c => 10 * acc + (c.toNat - '0'.toNat)) 0

/-- The number `n` of a file named `multi-<n>...`, if any. -/
def multiNumberOf (f : List Char) : Option Nat :=
  if startsWithJS multiTag f then
    let ds := (f.drop multiTag.length).takeWhile Char.isDigit
    if ds.isEmpty then none else some (digitsToNat ds)
  else none

/-- Follows the spec's words ("scanning the destination folder for the
existing highest numbered prefix and incrementing"), for comparison with
`nextMultiBaseName`. -/
def nextMultiBaseNameSpec (files : List (List Char)) : List Char :=
  multiTag ++ Nat.toDigits 10 ((files.filterMap multiNumberOf).foldr max 0 + 1)

/-! ### Archive member lists -/

/-- Models the library call `archive.directory(folder, false)` of
`createZip` (`src/unnamed/part_000` lines 201-212): with destination path
`false` the folder's entries are stored at the archive root, with no
parent path component. -/
def zipMembers (files : List (List Char)) : List (List Char) := files

/-- `path.basename`: the part of a path after its last slash. -/
def basenameJS (p : List Char) : List Char :=
  ((p.reverse).takeWhile (fun c => !(c = '/'))).reverse

/-- Models `tar.c({ gzip: true, file, cwd: parentDir }, [folderName])` of
`createTarGz` (`src/unnamed/part_000` lines 214-218): tar records each
named entry relative to `cwd`, so the folder itself and each of its files
become members under the folder's base name. -/
def tarGzMembers (folder : List Char) (files : List (List Char)) : List (List Char) :=
  basenameJS folder :: files.map (fun f => basenameJS folder ++ '/' :: f)

/-! ### Top-level catch handlers -/

/-- What a top-level catch handler does: the process exit code and whether
the partially-populated downloads directory was removed. -/
structure TerminationBehavior where
  exitCode : Nat
  removedDownloadsDir : Bool
deriving DecidableEq

/-- The `err.name` value raised when the operator cancels a prompt. -/
def exitPromptErrorName : List Char := "ExitPromptError".toList

/-- Catch handler of `src/index.mjs` (lines 142-155), identical to the
first script of `src/unnamed/part_000` (lines 118-131): on cancellation it
removes the downloads directory when it exists and exits 0; any other
error exits 1 without cleanup. -/
def mainCatch_index (errName : List Char) (downloadsDirPresent : Bool) :
    TerminationBehavior :=
  if errName = exitPromptErrorName then
    { exitCode := 0, removedDownloadsDir := downloadsDirPresent }
  else
    { exitCode := 1, removedDownloadsDir := false }

/-- Catch handler of the menu variant of `src/unnamed/part_000`
(lines 498-501): every error, cancellation included, goes to the generic
handler, which exits 1 and removes nothing. -/
def mainCatch_p0menu (_errName : List Char) : TerminationBehavior :=
  { exitCode := 1, removedDownloadsDir := false }

/-- Catch handler of `src/unnamed/part_001` (lines 279-287): cancellation
exits 0 but removes no directory; other errors exit 1. -/
def mainCatch_p1 (errName : List Char) : TerminationBehavior :=
  if errName = exitPromptErrorName then
    { exitCode := 0, removedDownloadsDir := false }
  else
    { exitCode := 1, removedDownloadsDir := false }

/-! ### Metadata fetcher -/

/-- One entry of the external tool's flat JSON: both fields may be absent. -/
structure RawEntry where
  id : Option (List Char)
  title : Option (List Char)
deriving DecidableEq

/-- The parsed JSON document: `title` and the `entries` array may be absent. -/
structure RawPlaylist where
  title : Option (List Char)
  entries : Option (List RawEntry)
deriving DecidableEq

/-- The item descriptor built by the fetchers. -/
structure VideoInfo where
  title : List Char
  url : List Char
deriving DecidableEq

/-- The fetcher result: collection title and ordered items. -/
structure PlaylistInfo where
  title : List Char
  videos : List VideoInfo
deriving DecidableEq

/-- `https://www.youtube.com/watch?v=${e.id}`. -/
def watchUrl (id : Option (List Char)) : List Char :=
  "https://www.youtube.com/watch?v=".toList ++ jsStr id

/-- `getPlaylistInfo` of `src/index.mjs` (lines 17-34) and
`src/unnamed/part_001` (lines 54-68): `result.title || "playlist"` and
`result.entries.map(v => ({ title: v.title || "Unknown Title", url }))`.
When `entries` is absent the `.map` throws and the catch exits the
process, hence the `Option` result. -/
def getPlaylistInfo_index (json : RawPlaylist) : Option PlaylistInfo :=
  match json.entries with
  | none => none
  | some es =>
    some { title := jsOr json.title "playlist".toList,
           videos := es.map (fun e =>
             { title := jsOr e.title "Unknown Title".toList,
               url := watchUrl e.id }) }

/-- `getPlaylistInfo` of the menu variant of `src/unnamed/part_000`
(lines 322-335), the subprocess fetcher: `json.title || "playlist"`,
`(json.entries || [])`, and `e.title || e.id || "Unknown"` for each item. -/
def getPlaylistInfo_sub (json : RawPlaylist) : PlaylistInfo :=
  { title := jsOr json.title "playlist".toList,
    videos := (json.entries.getD []).map (fun e =>
      { title := jsOr e.title (jsOr e.id "Unknown".toList),
        url := watchUrl e.id }) }

/-! ### Concrete inputs used by the counterexamples -/

/-- A playlist JSON whose only entry has id `a` and no title. -/
def jsonA : RawPlaylist :=
  { title := none, entries := some [{ id := some ['a'], title := none }] }

/-- A playlist JSON whose only entry has id `b` and no title. -/
def jsonB : RawPlaylist :=
  { title := none, entries := some [{ id := some ['b'], title := none }] }

theorem replaceRuns_nil_eq_filter (cls : Char → Bool) :
    ∀ s : List Char, replaceRuns cls [] s = s.filter (fun c => !cls c)
  | [] => by simp [replaceRuns]
  | c :: cs => by
    by_cases h : cls c
    · rw [replaceRuns, if_pos h, List.nil_append,
        replaceRuns_nil_eq_filter cls (cs.dropWhile cls),
        List.filter_cons_of_neg (by simp [h])]
      induction cs with
      | nil => simp
      | cons d ds ih =>
        by_cases hd : cls d
        · rw [List.dropWhile_cons_of_pos hd, ih,
            List.filter_cons_of_neg (by simp [hd])]
        · rw [List.dropWhile_cons_of_neg hd]
    · rw [replaceRuns, if_neg h, replaceRuns_nil_eq_filter cls cs,
        List.filter_cons_of_pos (by simp [h])]
termination_by s => s.length
decreasing_by
  · simpa using Nat.lt_succ_of_le (List.dropWhile_suffix cls).sublist.length_le
  · simp

/-- The sanitizer deletes exactly the characters of its class and keeps
every other character, in order. -/
theorem sanitize_eq_filter (s : List Char) :
    sanitize s = s.filter (fun c => !badChar c) :=
  replaceRuns_nil_eq_filter badChar s

/-- C2: For every input string, the filename sanitizer removes exactly the
characters of the class `<`, `>`, `:`, double quote, `/`, backslash, `|`,
`?`, `*` from the string and leaves every other character unchanged, in
order — i.e. it is the filter keeping exactly the characters outside the
regex class. -/
theorem sanitize_removes_exactly_badChars (s : List Char) :
    sanitize s = s.filter (fun c => !badChar c) :=
  sanitize_eq_filter s

/-- C9: The filename sanitizer is idempotent. -/
theorem sanitize_idempotent (s : List Char) :
    sanitize (sanitize s) = sanitize s := by
  rw [sanitize_eq_filter, sanitize_eq_filter s, List.filter_filter]
  exact List.filter_congr (by intro c _; cases badChar c <;> simp)

/-! ### Download Executor theorems -/

theorem runJobs_append {J : Type} (exec : J → Bool) (a b : List J) :
    runJobs exec (a ++ b) = runJobs exec a ++ runJobs exec b := by
  induction a with
  | nil => rfl
  | cons j rest ih => simp [runJobs, ih]

theorem runJobs_map_job {J : Type} (exec : J → Bool) (jobs : List J) :
    (runJobs exec jobs).map JobOutcome.job = jobs := by
  induction jobs with
  | nil => rfl
  | cons j rest ih => simp [runJobs, outcomeOf, ih]

/-- C1: The download loop processes the selected jobs strictly in selection
order, one at a time; wherever a job `j` sits in the sequence, the run is
the runs of the jobs before it, then `j`'s own single outcome, then the
runs of the jobs after it (so a failure of `j` affects no other job's
outcome), the outcomes list the jobs in order, and `j`'s outcome is
`failed` exactly when its external call exits non-zero. -/
theorem downloadExecutor_ordered_failSoft {J : Type} (exec : J → Bool)
    (pre post : List J) (j : J) :
    (runJobs exec (pre ++ j :: post)).map JobOutcome.job = pre ++ j :: post ∧
    runJobs exec (pre ++ j :: post) =
      runJobs exec pre ++ outcomeOf exec j :: runJobs exec post ∧
    ((outcomeOf exec j).status = JobStatus.failed ↔ exec j = false) := by
  refine ⟨runJobs_map_job exec _, ?_, ?_⟩
  · rw [runJobs_append]
    rfl
  · cases h : exec j <;> simp [outcomeOf, h]

/-! ### Batch input parsing theorems -/

theorem jsTrim_eq_nil_iff (l : List Char) : jsTrim l = [] ↔ ∀ c ∈ l, jsWS c := by
  unfold jsTrim
  rw [List.reverse_eq_nil_iff, List.dropWhile_eq_nil_iff]
  constructor
  · intro h c hc
    rcases List.mem_append.mp
        ((List.takeWhile_append_dropWhile (p := jsWS) (l := l)) ▸ hc) with h1 | h2
    · exact List.mem_takeWhile_imp h1
    · exact h c (List.mem_reverse.mpr h2)
  · intro h c hc
    exact h c ((List.dropWhile_suffix jsWS).sublist.subset (List.mem_reverse.mp hc))

theorem jsTrim_isEmpty_eq_all (l : List Char) : (jsTrim l).isEmpty = l.all jsWS := by
  by_cases h : ∀ c ∈ l, jsWS c
  · rw [(jsTrim_eq_nil_iff l).mpr h, List.all_eq_true.mpr h]
    rfl
  · have h1 : jsTrim l ≠ [] := fun hn => h ((jsTrim_eq_nil_iff l).mp hn)
    have h2 : l.all jsWS = false := by
      cases hb : l.all jsWS
      · rfl
      · exact absurd (fun c hc => List.all_eq_true.mp hb c hc) h
    rw [h2]
    cases hj : jsTrim l
    · exact absurd hj h1
    · rfl

theorem length_filter_map {α β : Type} (f : α → β) (p : β → Bool) :
    ∀ l : List α, ((l.map f).filter p).length = (l.filter (fun a => p (f a))).length
  | [] => rfl
  | a :: l => by
    by_cases h : p (f a) <;>
      simp [List.filter_cons, h, length_filter_map f p l]

/-- C7: The batch parser creates exactly one download job per line of the
input that contains a non-whitespace character: blank and whitespace-only
lines are dropped, so the job count is the count of non-blank lines. -/
theorem batchJobs_count (content : List Char) :
    (parseLinks content).length =
      ((splitLines content).filter (fun l => !(l.all jsWS))).length := by
  unfold parseLinks
  rw [length_filter_map]
  congr 1
  apply List.filter_congr
  intro l _
  rw [jsTrim_isEmpty_eq_all]

/-- C8 counterexample: in `src/unnamed/part_001`, a missing `links.txt`
terminates the whole process with exit code 1, not just that mode's run. -/
theorem multiMode_p1_missing_kills_process :
    multiVideoMode_p1 false [] = MultiModeResult1.exitProcess 1 := by decide

/-- C8 amended: a missing or empty batch input file creates no download
jobs and is reported; in the `part_000` variant the condition only ends
that mode's run (the mode returns), while in the `part_001` variant it
terminates the whole process with exit code 1. -/
theorem multiMode_missing_or_empty (content : List Char)
    (hempty : parseLinks content = []) :
    multiVideoMode_p0 false content = MultiModeResult.missingFile ∧
    multiVideoMode_p0 true content = MultiModeResult.emptyFile ∧
    multiVideoMode_p1 false content = MultiModeResult1.exitProcess 1 ∧
    multiVideoMode_p1 true content = MultiModeResult1.exitProcess 1 := by
  refine ⟨by simp [multiVideoMode_p0], ?_, by simp [multiVideoMode_p1], ?_⟩ <;>
    simp [multiVideoMode_p0, multiVideoMode_p1, hempty]

/-- Witness for C8's amended theorem at a whitespace-only batch file. -/
theorem multiMode_missing_or_empty_witness :
    multiVideoMode_p0 false " \n".toList = MultiModeResult.missingFile ∧
    multiVideoMode_p0 true " \n".toList = MultiModeResult.emptyFile ∧
    multiVideoMode_p1 false " \n".toList = MultiModeResult1.exitProcess 1 ∧
    multiVideoMode_p1 true " \n".toList = MultiModeResult1.exitProcess 1 :=
  multiMode_missing_or_empty " \n".toList (by decide)

/-! ### Archive naming theorems -/

/-- C4 counterexample: with only `multi-5.zip` present, the code names the
next archive `multi-2`, while scanning for the highest number and
incrementing would name it `multi-6`. -/
theorem nextMultiName_not_highest_plus_one :
    nextMultiBaseName ["multi-5.zip".toList] = "multi-2".toList ∧
    nextMultiBaseNameSpec ["multi-5.zip".toList] = "multi-6".toList ∧
    "multi-2".toList ≠ "multi-6".toList := by decide

/-- C4 amended: the batch archive base name is `multi-<n>` where `n` is one
more than the number of files in the destination folder whose names start
with `multi-`; in particular, when every existing file carries the
`multi-` tag the counter is the file count plus one, so a destination
holding exactly `multi-1.zip` and `multi-2.zip` yields `multi-3`. -/
theorem nextMultiName_counts (files : List (List Char))
    (hall : ∀ f ∈ files, startsWithJS multiTag f = true) :
    nextMultiBaseName files = multiTag ++ Nat.toDigits 10 (files.length + 1) := by
  unfold nextMultiBaseName
  rw [List.filter_eq_self.mpr hall]

/-- Witness for C4's amended theorem: `multi-1.zip`, `multi-2.zip` give
`multi-3`. -/
theorem nextMultiName_counts_witness :
    nextMultiBaseName ["multi-1.zip".toList, "multi-2.zip".toList] =
      multiTag ++
        Nat.toDigits 10 (["multi-1.zip".toList, "multi-2.zip".toList].length + 1) ∧
    multiTag ++ Nat.toDigits 10 (2 + 1) = "multi-3".toList :=
  ⟨nextMultiName_counts ["multi-1.zip".toList, "multi-2.zip".toList] (by decide),
   by decide⟩

/-! ### Archive member theorems -/

/-- C3 counterexample: the gzip tar of folder `downloads/multi` with files
`a.mp4`, `b.mp4` has members `multi`, `multi/a.mp4`, `multi/b.mp4` — every
file sits under a parent-directory path component, so the member list is
not `a.mp4`, `b.mp4`. -/
theorem tarGz_members_carry_folder_name :
    tarGzMembers "downloads/multi".toList ["a.mp4".toList, "b.mp4".toList] =
      ["multi".toList, "multi/a.mp4".toList, "multi/b.mp4".toList] ∧
    tarGzMembers "downloads/multi".toList ["a.mp4".toList, "b.mp4".toList] ≠
      ["a.mp4".toList, "b.mp4".toList] := by decide

/-- C3 amended: zip archives store exactly the folder's files with no
parent path component; gzip tar archives store the folder's base name as a
member and each file under that base name (and nothing else). -/
theorem archiveMembers_roots (folder : List Char) (files : List (List Char)) :
    zipMembers files = files ∧
    (∀ m ∈ tarGzMembers folder files,
      m = basenameJS folder ∨ ∃ f ∈ files, m = basenameJS folder ++ '/' :: f) ∧
    (∀ f ∈ files, basenameJS folder ++ '/' :: f ∈ tarGzMembers folder files) := by
  refine ⟨rfl, ?_, ?_⟩
  · intro m hm
    rcases List.mem_cons.mp hm with h | h
    · exact Or.inl h
    · rcases List.mem_map.mp h with ⟨f, hf, hfm⟩
      exact Or.inr ⟨f, hf, hfm.symm⟩
  · intro f hf
    exact List.mem_cons_of_mem _ (List.mem_map.mpr ⟨f, hf, rfl⟩)

/-- Witness for C3's amended theorem on the folder `downloads/multi` with
files `a.mp4`, `b.mp4`. -/
theorem archiveMembers_roots_witness :
    zipMembers ["a.mp4".toList, "b.mp4".toList] = ["a.mp4".toList, "b.mp4".toList] ∧
    basenameJS "downloads/multi".toList ++ '/' :: "a.mp4".toList ∈
      tarGzMembers "downloads/multi".toList ["a.mp4".toList, "b.mp4".toList] :=
  ⟨(archiveMembers_roots "downloads/multi".toList
      ["a.mp4".toList, "b.mp4".toList]).1,
   (archiveMembers_roots "downloads/multi".toList
      ["a.mp4".toList, "b.mp4".toList]).2.2 "a.mp4".toList (by decide)⟩

/-! ### Cancellation handling theorems -/

/-- C5 counterexample: in the menu variant of `src/unnamed/part_000`,
operator cancellation (an `ExitPromptError`) falls into the generic error
handler, which exits with code 1 and removes no partial directory. -/
theorem cancellation_p0menu_no_cleanup_exit1 :
    mainCatch_p0menu exitPromptErrorName =
      { exitCode := 1, removedDownloadsDir := false } := rfl

/-- C5 amended: on cancellation, the `index.mjs` entry point (and the
first script of `part_000`) removes the downloads directory exactly when
it exists and exits 0; the menu variant of `part_000` treats cancellation
as an unexpected error, exiting 1 with no cleanup; `part_001` exits 0 but
removes nothing. -/
theorem cancellation_behaviors (dirPresent : Bool) :
    mainCatch_index exitPromptErrorName dirPresent =
      { exitCode := 0, removedDownloadsDir := dirPresent } ∧
    mainCatch_p0menu exitPromptErrorName =
      { exitCode := 1, removedDownloadsDir := false } ∧
    mainCatch_p1 exitPromptErrorName =
      { exitCode := 0, removedDownloadsDir := false } := by
  refine ⟨?_, rfl, ?_⟩ <;> simp [mainCatch_index, mainCatch_p1]

/-! ### Metadata fetcher theorems -/

/-- C6 counterexample: in the subprocess fetcher of `src/unnamed/part_000`,
two entries that both omit the title get different default titles — their
ids — so an omitted title is not replaced by a fallback literal there. -/
theorem metadataTitle_default_not_literal :
    (getPlaylistInfo_sub jsonA).videos.map VideoInfo.title = [['a']] ∧
    (getPlaylistInfo_sub jsonB).videos.map VideoInfo.title = [['b']] ∧
    (['a'] : List Char) ≠ ['b'] := by decide

/-- C6 amended: on success every fetcher returns the collection title with
the fallback literal `playlist` when absent, and the items in source
order; an absent item title falls back to the literal `Unknown Title` in
`index.mjs`/`part_001`, while the subprocess fetcher of `part_000` falls
back first to the entry's id and only then to the literal `Unknown`. -/
theorem metadataFetcher_fallbacks (jt : Option (List Char)) (es : List RawEntry) :
    (∃ info, getPlaylistInfo_index { title := jt, entries := some es } = some info ∧
      info.title = jsOr jt "playlist".toList ∧
      info.videos.map VideoInfo.title =
        es.map (fun e => jsOr e.title "Unknown Title".toList)) ∧
    (getPlaylistInfo_sub { title := jt, entries := some es }).title =
      jsOr jt "playlist".toList ∧
    (getPlaylistInfo_sub { title := jt, entries := some es }).videos.map
        VideoInfo.title =
      es.map (fun e => jsOr e.title (jsOr e.id "Unknown".toList)) := by
  refine ⟨⟨_, rfl, rfl, ?_⟩, rfl, ?_⟩
  · rw [List.map_map]
    rfl
  · simp only [getPlaylistInfo_sub, Option.getD_some, List.map_map]
    rfl

/-- C10: the subprocess fetcher succeeds on a parsed JSON document that
lacks the `entries` array: it returns the title (with its fallback) and an
empty item list instead of failing. -/
theorem subFetcher_missing_entries_ok (jt : Option (List Char)) :
    getPlaylistInfo_sub { title := jt, entries := none } =
      { title := jsOr jt "playlist".toList, videos := [] } := rfl

end YPD
